import Mathlib

/-!
Verification development for the client-side session synchronization
controller of the CurrentEvents chatbot frontend.

The definitions below are a shallow embedding of the TypeScript/Vue source:

* `src/frontend/src/chat_page/ChatUI.vue` — conversation buffer, `send`,
  `autoSaveUpsert`, `pickChatId`/`pickTitle`, `refreshList`;
* `src/frontend/src/services/api.ts` — `api.chats.save` payload construction,
  `setToken`/`getToken`;
* the auth store (`authState`, `bootstrapAuth`, `logout`);
* `src/frontend/src/router/index.ts` — the `beforeEach` navigation guard.

Nullable JavaScript strings are modelled as `Option String`; JS truthiness,
`??` and `||` are modelled explicitly.  Asynchronous calls are modelled by
passing their outcomes as explicit parameters (the code is single-threaded
and suspends only at `await` points); where interleaving matters
(`bootstrapAuth`) a small step machine with an explicit schedule is used.
-/

namespace ChatClient

/-- JS truthiness of a nullable string: `null`/`undefined` and the empty
string are falsy, every other string is truthy. -/
def jsTruthy : Option String → Bool
  | some s => s ≠ ""
  | none => false

/-- JS nullish coalescing `a ?? b` on nullable strings: `b` is used only
when `a` is `null`/`undefined` (the empty string is kept). -/
def jsNullish (a b : Option String) : Option String :=
  match a with
  | some s => some s
  | none => b

/-- JS logical or `a || b` on nullable strings: `b` is used when `a` is
falsy (`null`, `undefined` or the empty string). -/
def jsOr (a b : Option String) : Option String :=
  if jsTruthy a then a else b

/-- JS logical or `a || b` where `b` is a plain (non-null) string default. -/
def jsOrStr (a : Option String) (b : String) : String :=
  match a with
  | some s => if s = "" then b else s
  | none => b

/-- Characters removed by JS `String.prototype.trim` (the whitespace class
relevant to this code base). -/
def isJsWhitespace (c : Char) : Bool :=
  c == ' ' || c == '\t' || c == '\n' || c == '\r' || c == '\x0b' || c == '\x0c'

/-- JS `s.trim()`: strip leading and trailing whitespace. -/
def jsTrim (s : String) : String :=
  String.mk (((s.toList.dropWhile isJsWhitespace).reverse.dropWhile
    isJsWhitespace).reverse)

/-- JS `s.slice(0, n)`: the first `n` characters of `s`. -/
def strTrunc (n : Nat) (s : String) : String :=
  String.mk (s.toList.take n)

/-- Message role in the conversation buffer (ChatUI.vue `Msg.role`):
`user` or `bot`. -/
inductive Role
  | user
  | bot
deriving DecidableEq, Repr

/-- One message of the conversation buffer (ChatUI.vue type `Msg`). -/
structure Msg where
  id : String
  role : Role
  text : String
  time : String
deriving DecidableEq, Repr

/-- Fields of the `meta` object that `pickChatId`/`pickTitle` probe in a
backend response. -/
structure RMeta where
  chat_id : Option String
  id : Option String
  title : Option String
deriving DecidableEq, Repr

/-- Loosely-typed backend response as probed by `pickChatId`/`pickTitle`
(ChatUI.vue:549-562): every field may be absent. -/
structure Resp where
  meta : Option RMeta
  chat_id : Option String
  id : Option String
  title : Option String
deriving DecidableEq, Repr

/-- Embedding of `pickChatId` (ChatUI.vue:550-558):
`resp?.meta?.chat_id ?? resp?.chat_id ?? resp?.id ?? resp?.meta?.id ?? null`.
The argument is `Option Resp` because `resp` itself may be `null`. -/
def pickChatId (resp : Option Resp) : Option String :=
  jsNullish ((resp.bind Resp.meta).bind RMeta.chat_id)
    (jsNullish (resp.bind Resp.chat_id)
      (jsNullish (resp.bind Resp.id)
        ((resp.bind Resp.meta).bind RMeta.id)))

/-- Embedding of `pickTitle` (ChatUI.vue:560-562):
`resp?.meta?.title ?? resp?.title ?? fallback ?? null`. -/
def pickTitle (resp : Option Resp) (fallback : Option String) : Option String :=
  jsNullish ((resp.bind Resp.meta).bind RMeta.title)
    (jsNullish (resp.bind Resp.title) fallback)

/-- One element of the `messages` array sent to the store
(`autoSaveUpsert`'s payload mapping, ChatUI.vue:458-461). -/
structure PayloadMsg where
  role : String
  content : String
deriving DecidableEq, Repr

/-- Request body built by `api.chats.save` (api.ts:110-123): `messages`
always; `chat_id` exactly when a truthy `chatId` argument was given;
otherwise `title` exactly when a truthy `title` argument was given. -/
structure SavePayload where
  messages : List PayloadMsg
  chat_id : Option String
  title : Option String
deriving DecidableEq, Repr

/-- Embedding of the payload construction in `api.chats.save`
(api.ts:115-118): `if (chatId) payload.chat_id = chatId; else if (title)
payload.title = title;`. -/
def chatsSavePayload (messages : List PayloadMsg) (title : Option String)
    (chatId : Option String) : SavePayload :=
  if jsTruthy chatId then ⟨messages, chatId, none⟩
  else if jsTruthy title then ⟨messages, none, title⟩
  else ⟨messages, none, none⟩

/-- Mapping of a buffer message to the store payload (ChatUI.vue:458-461):
role `bot` becomes `"assistant"`, everything else `"user"`. -/
def toPayloadMsg (m : Msg) : PayloadMsg :=
  ⟨if m.role = Role.bot then "assistant" else "user", m.text⟩

/-- Title seed derived in `autoSaveUpsert`'s create branch
(ChatUI.vue:470-471): `(firstUser?.text || "新對話").trim().slice(0, 20)`. -/
def deriveTitleSeed (msgs : List Msg) : String :=
  let firstUser := msgs.find? (fun m => decide (m.role = Role.user))
  strTrunc 20 (jsTrim (jsOrStr (firstUser.map Msg.text) "新對話"))

/-- Request issued by `autoSaveUpsert` (ChatUI.vue:456-479): `none` when the
buffer is empty (no store call at all); otherwise the `api.chats.save`
payload of the update branch (known id, no title argument) or of the create
branch (derived title seed, no id argument). -/
def autoSaveRequest (msgs : List Msg) (currentChatId : Option String) :
    Option SavePayload :=
  if msgs.length = 0 then none
  else
    let payload := msgs.map toPayloadMsg
    if jsTruthy currentChatId then
      some (chatsSavePayload payload none currentChatId)
    else
      some (chatsSavePayload payload (some (deriveTitleSeed msgs)) none)

/-- Title rule as worded by the specification for the create branch: the
first user turn's trimmed text truncated to 20 characters, with the fixed
placeholder only when the buffer contains no user turn at all. -/
def specTitleRule (msgs : List Msg) : String :=
  match msgs.find? (fun m => decide (m.role = Role.user)) with
  | some u => strTrunc 20 (jsTrim u.text)
  | none => "新對話"

/-- Amended title rule: like `specTitleRule`, but the placeholder is also
used when the first user turn's text is the empty string (JS `||` treats the
empty string as falsy). -/
def amendedTitleRule (msgs : List Msg) : String :=
  match msgs.find? (fun m => decide (m.role = Role.user)) with
  | some u => if u.text = "" then "新對話" else strTrunc 20 (jsTrim u.text)
  | none => "新對話"

/-- Value of `currentChatId` after `autoSaveUpsert` reconciles the store
response `r` (ChatUI.vue:462-477): update branch keeps
`pickChatId(r) || currentChatId`, create branch takes `pickChatId(r)`. -/
def upsertNewChatId (old : Option String) (r : Option Resp) : Option String :=
  if jsTruthy old then jsOr (pickChatId r) old
  else pickChatId r

/-- Value of `currentTitle` after `autoSaveUpsert` reconciles the store
response `r` (ChatUI.vue:465-474): the fallback is the previously known
title in the update branch and the locally derived seed in the create
branch. -/
def upsertNewTitle (oldId oldTitle : Option String) (msgs : List Msg)
    (r : Option Resp) : Option String :=
  if jsTruthy oldId then pickTitle r oldTitle
  else pickTitle r (some (deriveTitleSeed msgs))

/-- Value of `currentChatId` after `send`'s reply handling
(ChatUI.vue:362-366 and 384-388): `const rid = pickChatId(data);
if (rid) currentChatId.value = rid;`. -/
def sendReplyChatId (old : Option String) (data : Option Resp) :
    Option String :=
  if jsTruthy (pickChatId data) then pickChatId data else old

/-- Response shape carrying the identifier under `meta.chat_id`. -/
def shapeMetaChatId (v : String) : Resp := ⟨some ⟨some v, none, none⟩, none, none, none⟩

/-- Response shape carrying the identifier under `chat_id`. -/
def shapeChatId (v : String) : Resp := ⟨none, some v, none, none⟩

/-- Response shape carrying the identifier under `id`. -/
def shapeTopId (v : String) : Resp := ⟨none, none, some v, none⟩

/-- Response shape carrying the identifier under `meta.id`. -/
def shapeMetaId (v : String) : Resp := ⟨some ⟨none, some v, none⟩, none, none, none⟩

/-- Predicate: the response carries a title under neither of the two probed
paths (`meta.title`, `title`). -/
def noTitleField (r : Option Resp) : Prop :=
  (r.bind Resp.meta).bind RMeta.title = none ∧ r.bind Resp.title = none

/-- Observable events of one `send()` invocation (ChatUI.vue:328-402), in
program order.  The network calls carry their outcome (`true` = resolved
successfully, `false` = threw). -/
inductive Ev
  | appendUser
  | chatCall (ok : Bool)
  | clearFilesEv
  | appendBot
  | upsertCall (ok : Bool)
  | refreshCall (ok : Bool)
  | appendApology
  | clearLoading
deriving DecidableEq, Repr

/-- Outcomes of the asynchronous calls a `send()` invocation may make. -/
structure SendEnv where
  chatOk : Bool
  upsertOk : Bool
  refreshOk : Bool
deriving DecidableEq, Repr

/-- Event trace of one `send()` invocation (ChatUI.vue:328-402).  The two
admission guards return the empty trace; otherwise the user turn is
appended, the chat call made, and on success the bot turn is appended before
`autoSaveUpsert` and `refreshList` run in order; any thrown error skips the
rest of the `try` block and appends the apology turn; the `finally` clause
always clears the loading flag. -/
def sendTrace (loading hasText hasFiles : Bool) (env : SendEnv) : List Ev :=
  if loading then []
  else if !hasText && !hasFiles then []
  else
    Ev.appendUser ::
    ((if env.chatOk then
        Ev.chatCall true ::
        ((if hasFiles then [Ev.clearFilesEv] else []) ++
         Ev.appendBot ::
         (if env.upsertOk then
            Ev.upsertCall true ::
            Ev.refreshCall env.refreshOk ::
            (if env.refreshOk then [] else [Ev.appendApology])
          else [Ev.upsertCall false, Ev.appendApology]))
      else [Ev.chatCall false, Ev.appendApology]) ++
     [Ev.clearLoading])

/-- Event classifier: an `autoSaveUpsert` call (either outcome). -/
def evIsUpsert : Ev → Bool
  | Ev.upsertCall _ => true
  | _ => false

/-- Event classifier: a `refreshList` call (either outcome). -/
def evIsRefresh : Ev → Bool
  | Ev.refreshCall _ => true
  | _ => false

/-- Event classifier: the assistant (bot) reply being appended. -/
def evIsAppendBot : Ev → Bool
  | Ev.appendBot => true
  | _ => false

/-- Temporal precedence on traces: no `p`-event occurs before the first
`q`-event (so every `p`-event is strictly after a `q`-event). -/
def occursOnlyAfter (q p : Ev → Bool) : List Ev → Bool
  | [] => true
  | e :: rest => if p e then false else if q e then true else occursOnlyAfter q p rest

/-- Fixed apology text appended by `send`'s catch clause (ChatUI.vue:398). -/
def apologyText : String := "抱歉，剛剛處理時出了點問題。"

/-- Placeholder user text used when only attachments are sent
(ChatUI.vue:335). -/
def attachmentPlaceholder : String := "（附帶檔案）"

/-- Effect of one `send()` invocation on the conversation buffer
(ChatUI.vue:328-402).  `mk` stands for `addMessage`'s construction of a
fresh message from a role and text (the generated id and clock time are
opaque here).  The trimmed input text is appended as a user turn (or the
attachment placeholder when only files are sent) before the chat call; on
success the reply is appended as a bot turn; any thrown error (chat call,
upsert, or refresh) makes the catch clause append the fixed apology as a bot
turn. -/
def sendMessages (msgs : List Msg) (inputText : String) (hasFiles loading : Bool)
    (env : SendEnv) (reply : String) (mk : Role → String → Msg) : List Msg :=
  if loading then msgs
  else
    let text := jsTrim inputText
    if text == "" && !hasFiles then msgs
    else
      let msgs1 :=
        if text == "" then msgs ++ [mk Role.user attachmentPlaceholder]
        else msgs ++ [mk Role.user text]
      if env.chatOk then
        let msgs2 := msgs1 ++ [mk Role.bot reply]
        if env.upsertOk && env.refreshOk then msgs2
        else msgs2 ++ [mk Role.bot apologyText]
      else msgs1 ++ [mk Role.bot apologyText]

/-- The auth store's reactive state (`authState` in the auth store). -/
structure AuthSt where
  authed : Bool
  username : Option String
  bootstrapped : Bool
deriving DecidableEq, Repr

/-- World state shared by `bootstrapAuth` invocations: the auth state, the
stored bearer token (`localStorage`, via `getToken`/`setToken`), and a
counter of identity-check (`api.auth.me`) network calls issued. -/
structure BootWorld where
  auth : AuthSt
  token : Option String
  meCalls : Nat
deriving DecidableEq, Repr

/-- Control point of one `bootstrapAuth()` task: not yet started, suspended
at `await api.auth.me()`, or returned. -/
inductive BootPhase
  | start
  | awaitingMe
  | done
deriving DecidableEq, Repr

/-- One cooperative step of a `bootstrapAuth()` task (Register.vue:522-542).
From `start` the synchronous prefix runs atomically: return at once if
already bootstrapped; with no (truthy) token, mark bootstrapped and return
without any network call; otherwise issue the identity check and suspend.
From `awaitingMe` the call resolves with `meOutcome` (`some u` = success
with `username` field `u`, `none` = any failure): success sets the
authenticated state, failure clears the token and degrades to
unauthenticated; the `finally` clause marks bootstrapped in both cases and
no error escapes. -/
def bootStep (meOutcome : Option (Option String)) :
    BootPhase → BootWorld → BootPhase × BootWorld
  | BootPhase.start, w =>
    if w.auth.bootstrapped then (BootPhase.done, w)
    else if !(jsTruthy w.token) then
      (BootPhase.done, { w with auth := ⟨false, none, true⟩ })
    else
      (BootPhase.awaitingMe, { w with meCalls := w.meCalls + 1 })
  | BootPhase.awaitingMe, w =>
    match meOutcome with
    | some u => (BootPhase.done, { w with auth := ⟨true, u, true⟩ })
    | none => (BootPhase.done, { w with token := none, auth := ⟨false, none, true⟩ })
  | BootPhase.done, w => (BootPhase.done, w)

/-- One complete, uninterleaved `bootstrapAuth()` run: take the first step
and, if it suspended at the identity check, resume it. -/
def runOne (meOutcome : Option (Option String)) (w : BootWorld) : BootWorld :=
  match bootStep meOutcome BootPhase.start w with
  | (BootPhase.awaitingMe, w1) => (bootStep meOutcome BootPhase.awaitingMe w1).2
  | (_, w1) => w1

/-- Two concurrent `bootstrapAuth()` invocations under an explicit
cooperative schedule: each schedule entry picks which task takes its next
step (`true` = first task).  `oA`/`oB` are the identity-check outcomes seen
by each task. -/
def runTwo (oA oB : Option (Option String)) :
    List Bool → BootPhase × BootPhase × BootWorld → BootPhase × BootPhase × BootWorld
  | [], s => s
  | pick :: rest, (pA, pB, w) =>
    if pick then
      let s := bootStep oA pA w
      runTwo oA oB rest (s.1, pB, s.2)
    else
      let s := bootStep oB pB w
      runTwo oA oB rest (pA, s.1, s.2)

/-- Per-route requirements read from the route's `meta` record
(router/index.ts:10-12). -/
structure RouteMeta where
  requiresAuth : Bool
  guestOnly : Bool
deriving DecidableEq, Repr

/-- Navigation target as seen by the guard: the matched route records and
the full target path. -/
structure RouteTarget where
  matched : List RouteMeta
  fullPath : String
deriving DecidableEq, Repr

/-- Outcome of the navigation guard: allow, or redirect to a path, carrying
the original target in the `redirect` query parameter when present. -/
inductive GuardOutcome
  | allow
  | redirect (path : String) (redirectQuery : Option String)
deriving DecidableEq, Repr

/-- Decision of `router.beforeEach` once bootstrap has resolved
(router/index.ts:23-38): auth-required target while unauthenticated
redirects to `/login` with the target's full path as the `redirect` query;
guest-only target while authenticated redirects to `/`; otherwise the
navigation is allowed.  The decision reads only `to` and the resolved
`authState.authed`; it makes no further network call. -/
def guardDecision (t : RouteTarget) (authed : Bool) : GuardOutcome :=
  if t.matched.any (fun r => r.requiresAuth) && !authed then
    GuardOutcome.redirect "/login" (some t.fullPath)
  else if t.matched.any (fun r => r.guestOnly) && authed then
    GuardOutcome.redirect "/" none
  else
    GuardOutcome.allow

/-- One element of the `api.chats.list` response array as read by
`refreshList` (ChatUI.vue:510-518): `chat_id` may be absent (a null item is
modelled as one with no `chat_id`). -/
structure ListItem where
  chat_id : Option String
  title : String
  created_at : String
deriving DecidableEq, Repr

/-- One row of the History Index (`HistoryRow` in ChatUI.vue). -/
structure HistoryRow where
  chat_id : String
  title : String
  created_at : String
deriving DecidableEq, Repr

/-- The `Map`-building loop of `refreshList` (ChatUI.vue:509-519): items
with a falsy `chat_id` are skipped, and only the first item with a given
`chat_id` is kept (insertion order preserved, as JS `Map` does). -/
def buildRows : List ListItem → List HistoryRow → List HistoryRow
  | [], acc => acc
  | ⟨none, _, _⟩ :: xs, acc => buildRows xs acc
  | ⟨some k, xt, xc⟩ :: xs, acc =>
    if k = "" then buildRows xs acc
    else if acc.any (fun r => decide (r.chat_id = k)) then buildRows xs acc
    else buildRows xs (acc ++ [⟨k, xt, xc⟩])

/-- Descending-creation-time order used by `refreshList`'s comparator
`(a, b) => new Date(b.created_at).getTime() - new Date(a.created_at).getTime()`;
`parse` stands for the date parsing. -/
def createdGE (parse : String → Int) (a b : HistoryRow) : Prop :=
  parse b.created_at ≤ parse a.created_at

instance (parse : String → Int) : DecidableRel (createdGE parse) :=
  fun a b => inferInstanceAs (Decidable (parse b.created_at ≤ parse a.created_at))

/-- Result of `refreshList`'s list processing (ChatUI.vue:509-523):
deduplicate by `chat_id` (first occurrence wins), then sort by parsed
creation time descending (JS `Array.prototype.sort` is stable; a stable
insertion sort models it). -/
def refreshRows (parse : String → Int) (items : List ListItem) : List HistoryRow :=
  List.insertionSort (createdGE parse) (buildRows items [])

/-- Response of `api.chats.list` as read by `refreshList`: the `items`
field may be absent (`r.items || []`). -/
structure ListResp where
  items : Option (List ListItem)
deriving DecidableEq, Repr

/-- State touched by `refreshList`: the History Index and the loading
flag. -/
structure HistState where
  history : List HistoryRow
  loadingList : Bool
deriving DecidableEq, Repr

/-- One complete `refreshList()` run (ChatUI.vue:505-527).  `outcome` is the
result of `await api.chats.list()` (`none` = the call threw).  The returned
`Bool` is whether the error propagated to the caller (the function has no
catch clause); the `finally` clause clears the loading flag either way, and
the history is replaced only on success. -/
def refreshListRun (parse : String → Int) (st : HistState)
    (outcome : Option ListResp) : HistState × Bool :=
  match outcome with
  | none => ({ st with loadingList := false }, true)
  | some r =>
    let items := match r.items with
      | some l => l
      | none => []
    (⟨refreshRows parse items, false⟩, false)

theorem jsTruthy_ne_none {o : Option String} (h : jsTruthy o = true) :
    o ≠ none := by
  cases o with
  | none => simp [jsTruthy] at h
  | some s => simp

theorem titleSeed_eq_amended (msgs : List Msg) :
    deriveTitleSeed msgs = amendedTitleRule msgs := by
  unfold deriveTitleSeed amendedTitleRule
  cases h : msgs.find? (fun m => decide (m.role = Role.user)) with
  | none => simp only [h, Option.map_none', jsOrStr]; decide
  | some u =>
    simp only [h, Option.map_some', jsOrStr]
    by_cases ht : u.text = ""
    · simp only [ht, if_pos rfl]; decide
    · simp only [if_neg ht]

/-- Claim C1 (amended): for every `autoSaveUpsert` invocation on a non-empty
buffer, a known (truthy) server id yields the store's update payload keyed
by that id with no title field; with no known id the create payload carries
no id and its title argument follows the amended derivation (the first user
turn's trimmed text truncated to 20 characters, with the fixed placeholder
新對話 when there is no user turn or its text is the empty string); the
create payload carries a `title` field exactly when that seed is
non-empty. -/
theorem autoSave_upsert_shape (msgs : List Msg) (cid : Option String)
    (h : msgs ≠ []) :
    (jsTruthy cid = true →
      autoSaveRequest msgs cid = some ⟨msgs.map toPayloadMsg, cid, none⟩) ∧
    (jsTruthy cid = false →
      autoSaveRequest msgs cid =
        some (chatsSavePayload (msgs.map toPayloadMsg)
          (some (amendedTitleRule msgs)) none) ∧
      (amendedTitleRule msgs ≠ "" →
        autoSaveRequest msgs cid =
          some ⟨msgs.map toPayloadMsg, none, some (amendedTitleRule msgs)⟩) ∧
      (amendedTitleRule msgs = "" →
        autoSaveRequest msgs cid = some ⟨msgs.map toPayloadMsg, none, none⟩)) := by
  have hlen : ¬ msgs.length = 0 := by simpa [List.length_eq_zero] using h
  constructor
  · intro ht
    simp [autoSaveRequest, hlen, ht, chatsSavePayload]
  · intro hf
    have hseed := titleSeed_eq_amended msgs
    refine ⟨?_, ?_, ?_⟩
    · simp [autoSaveRequest, hlen, hf, hseed]
    · intro hne
      have hj : jsTruthy (some (amendedTitleRule msgs)) = true := by
        simp [jsTruthy, hne]
      simp [autoSaveRequest, hlen, hf, chatsSavePayload, hseed, hj,
        show jsTruthy none = false from rfl]
    · intro he
      have hj : jsTruthy (some (amendedTitleRule msgs)) = false := by
        simp [jsTruthy, he]
      simp [autoSaveRequest, hlen, hf, chatsSavePayload, hseed, hj]

/-- Claim C1 witness: one user turn "hello" with known id "cid" yields the
update payload keyed by "cid" with no title field. -/
theorem autoSave_upsert_shape_witness :
    autoSaveRequest [⟨"m1", Role.user, "hello", "00:00"⟩] (some "cid") =
      some ⟨[⟨"user", "hello"⟩], some "cid", none⟩ :=
  (autoSave_upsert_shape [⟨"m1", Role.user, "hello", "00:00"⟩] (some "cid")
    (by decide)).1 (by decide)

/-- Claim C1 counterexample: on a buffer whose only user turn has empty
text and with no known server id, the code derives the placeholder title
新對話 (JS `||` treats the empty string as falsy), while the claim's rule —
placeholder only when there is no user turn — derives the empty string. -/
theorem autoSave_title_claim_cx :
    deriveTitleSeed [⟨"m1", Role.user, "", "00:00"⟩] = "新對話" ∧
    specTitleRule [⟨"m1", Role.user, "", "00:00"⟩] = "" ∧
    autoSaveRequest [⟨"m1", Role.user, "", "00:00"⟩] none =
      some ⟨[⟨"user", ""⟩], none, some "新對話"⟩ ∧
    ("新對話" : String) ≠ "" :=
  ⟨by decide, by decide, by decide, by decide⟩

/-- Claim C2 (amended): once `currentChatId` is truthy, neither `send`'s
reply handling nor `autoSaveUpsert`'s reconciliation ever clears it; both
preserve it whenever the response carries no truthy id under the extraction
paths, and both replace it exactly when the response carries a truthy
extracted id (in which case the new value is that id). -/
theorem serverId_update_rule (old : Option String) (r : Option Resp)
    (h : jsTruthy old = true) :
    upsertNewChatId old r = sendReplyChatId old r ∧
    (jsTruthy (pickChatId r) = false →
      sendReplyChatId old r = old ∧ upsertNewChatId old r = old) ∧
    (jsTruthy (pickChatId r) = true →
      sendReplyChatId old r = pickChatId r ∧
      upsertNewChatId old r = pickChatId r) ∧
    sendReplyChatId old r ≠ none ∧ upsertNewChatId old r ≠ none := by
  have hne : old ≠ none := jsTruthy_ne_none h
  cases hb : jsTruthy (pickChatId r) with
  | false =>
    refine ⟨?_, fun _ => ⟨?_, ?_⟩, fun hc => by simp [hb] at hc, ?_, ?_⟩ <;>
      simp [sendReplyChatId, upsertNewChatId, jsOr, h, hb, hne]
  | true =>
    have hpn : pickChatId r ≠ none := jsTruthy_ne_none hb
    refine ⟨?_, fun hc => by simp [hb] at hc, fun _ => ⟨?_, ?_⟩, ?_, ?_⟩ <;>
      simp [sendReplyChatId, upsertNewChatId, jsOr, h, hb, hpn]

/-- Claim C2 witness: a known id "k" survives a response that carries no id
at all, in both the reply handler and the reconciler. -/
theorem serverId_update_rule_witness :
    sendReplyChatId (some "k") none = some "k" ∧
    upsertNewChatId (some "k") none = some "k" :=
  (serverId_update_rule (some "k") none (by decide)).2.1 (by decide)

/-- Claim C2 counterexample: with known id "a", a response carrying
`chat_id = "b"` makes both the reply handler and the reconciler replace the
id with "b", so a known id is not always kept. -/
theorem serverId_stability_cx :
    sendReplyChatId (some "a") (some ⟨none, some "b", none, none⟩) = some "b" ∧
    upsertNewChatId (some "a") (some ⟨none, some "b", none, none⟩) = some "b" ∧
    (some "b" : Option String) ≠ some "a" :=
  ⟨by decide, by decide, by decide⟩

/-- Claim C3: each of the four supported response shapes (id under
`meta.chat_id`, `chat_id`, `id`, `meta.id`) extracts to the same server id;
when extraction yields nothing the previously known id (truthy or null) is
preserved unchanged by both reconciliation paths; and title extraction falls
back to the supplied fallback (the previously known title in the update
branch, the locally derived seed in the create branch) when the response
carries no title field. -/
theorem response_shape_fallback (v : String) (old : Option String)
    (r : Option Resp) (fb : Option String) :
    (pickChatId (some (shapeMetaChatId v)) = some v ∧
     pickChatId (some (shapeChatId v)) = some v ∧
     pickChatId (some (shapeTopId v)) = some v ∧
     pickChatId (some (shapeMetaId v)) = some v) ∧
    (pickChatId r = none → old = none ∨ jsTruthy old = true →
      upsertNewChatId old r = old ∧ sendReplyChatId old r = old) ∧
    (noTitleField r → pickTitle r fb = fb) := by
  refine ⟨⟨rfl, rfl, rfl, rfl⟩, ?_, ?_⟩
  · intro hn hold
    constructor
    · rcases hold with h0 | ht
      · subst h0
        simp [upsertNewChatId, jsTruthy, hn]
      · simp only [upsertNewChatId, ht, if_true]
        simp [jsOr, hn, jsTruthy]
    · simp [sendReplyChatId, hn, jsTruthy]
  · rintro ⟨h1, h2⟩
    simp [pickTitle, h1, h2, jsNullish]

/-- Claim C3 witness: the `meta.id` shape extracts "x"; a response with no
fields preserves the known id "p" and falls back to the supplied title. -/
theorem response_shape_fallback_witness :
    pickChatId (some (shapeMetaId "x")) = some "x" ∧
    upsertNewChatId (some "p") (some ⟨none, none, none, none⟩) = some "p" ∧
    pickTitle (some ⟨none, none, none, none⟩) (some "t") = some "t" := by
  obtain ⟨hs, hp, ht⟩ :=
    response_shape_fallback "x" (some "p") (some ⟨none, none, none, none⟩)
      (some "t")
  exact ⟨hs.2.2.2, (hp (by decide) (Or.inr (by decide))).1, ht ⟨rfl, rfl⟩⟩

/-- Claim C4: in every `send()` invocation, the `autoSaveUpsert` call occurs
only after the assistant turn has been appended, the `refreshList` call
occurs only after the upsert call has resolved (with either outcome), and
(non-vacuously) when the guards pass and the chat and upsert calls succeed a
refresh call is indeed made. -/
theorem send_order :
    ∀ loading hasText hasFiles c u r : Bool,
      occursOnlyAfter evIsAppendBot evIsUpsert
        (sendTrace loading hasText hasFiles ⟨c, u, r⟩) = true ∧
      occursOnlyAfter evIsUpsert evIsRefresh
        (sendTrace loading hasText hasFiles ⟨c, u, r⟩) = true ∧
      (loading = false → (hasText || hasFiles) = true → c = true → u = true →
        (sendTrace loading hasText hasFiles ⟨c, u, r⟩).any evIsRefresh = true) := by
  decide

/-- Claim C4 witness: in the all-success trace with text input, the refresh
call is present and the ordering checks pass. -/
theorem send_order_witness :
    (sendTrace false true false ⟨true, true, true⟩).any evIsRefresh = true :=
  (send_order false true false true true true).2.2 rfl rfl rfl rfl

/-- Claim C5 (amended): when the chat-completion call fails in a guarded,
non-reentrant `send()`: the user turn appended before the call is still
present in the buffer afterward, and the only turn appended after it is the
fixed apology bot turn — in particular no assistant turn carrying a reply is
appended (though the apology itself is a bot-role turn). -/
theorem send_failure_buffer (msgs : List Msg) (inputText : String)
    (hasFiles : Bool) (env : SendEnv) (reply : String)
    (mk : Role → String → Msg) (hfail : env.chatOk = false)
    (hguard : (jsTrim inputText == "" && !hasFiles) = false) :
    sendMessages msgs inputText hasFiles false env reply mk =
      msgs ++ [mk Role.user (if jsTrim inputText == "" then attachmentPlaceholder
                 else jsTrim inputText),
               mk Role.bot apologyText] ∧
    mk Role.user (if jsTrim inputText == "" then attachmentPlaceholder
      else jsTrim inputText) ∈
        sendMessages msgs inputText hasFiles false env reply mk ∧
    (sendMessages msgs inputText hasFiles false env reply mk).drop
        msgs.length =
      [mk Role.user (if jsTrim inputText == "" then attachmentPlaceholder
         else jsTrim inputText),
       mk Role.bot apologyText] := by
  have key : sendMessages msgs inputText hasFiles false env reply mk =
      msgs ++ [mk Role.user (if jsTrim inputText == "" then attachmentPlaceholder
                 else jsTrim inputText),
               mk Role.bot apologyText] := by
    by_cases he : jsTrim inputText == ""
    · have hfiles : hasFiles = true := by
        rcases Bool.eq_false_or_eq_true hasFiles with hb | hb
        · exact hb
        · rw [he, hb] at hguard; simp at hguard
      simp [sendMessages, hfail, he, hfiles]
    · simp [sendMessages, hguard, hfail, he]
  refine ⟨key, ?_, ?_⟩
  · rw [key]; simp
  · rw [key]
    exact List.drop_left msgs _

/-- Claim C5 witness: a failing chat call on an empty buffer with input
"hello" leaves exactly the user turn followed by the apology turn. -/
theorem send_failure_buffer_witness :
    sendMessages [] "hello" false false ⟨false, true, true⟩ "r"
      (fun r t => ⟨"w5", r, t, "01:00"⟩) =
      [⟨"w5", Role.user, "hello", "01:00"⟩,
       ⟨"w5", Role.bot, apologyText, "01:00"⟩] :=
  ((send_failure_buffer [] "hello" false ⟨false, true, true⟩ "r"
    (fun r t => ⟨"w5", r, t, "01:00"⟩) rfl (by decide)).1).trans (by decide)

/-- Claim C5 counterexample: after a failing chat call the buffer does
contain an appended bot-role (assistant-side) turn — the fixed apology — so
the claim's "no assistant turn has been appended" fails as stated. -/
theorem send_failure_no_bot_cx :
    sendMessages [] "hi" false false ⟨false, true, true⟩ "r"
      (fun r t => ⟨"m0", r, t, "00:00"⟩) =
      [⟨"m0", Role.user, "hi", "00:00"⟩,
       ⟨"m0", Role.bot, apologyText, "00:00"⟩] ∧
    (sendMessages [] "hi" false false ⟨false, true, true⟩ "r"
      (fun r t => ⟨"m0", r, t, "00:00"⟩)).any
        (fun m => decide (m.role = Role.bot)) = true :=
  ⟨by decide, by decide⟩

/-- Claim C6 (amended): after a completed `bootstrapAuth()` run the
bootstrapped flag is set, and any call made after completion returns
immediately with the state unchanged and no identity check issued.
At-most-once holds only for calls made after completion: a call made while
an earlier call's validation is still in flight re-validates (see the
counterexample). -/
theorem bootstrap_after_completion (w v : BootWorld)
    (o p : Option (Option String)) (hv : v.auth.bootstrapped = true) :
    (runOne o w).auth.bootstrapped = true ∧
    bootStep p BootPhase.start v = (BootPhase.done, v) := by
  constructor
  · unfold runOne
    cases hb : w.auth.bootstrapped with
    | true => simp [bootStep, hb]
    | false =>
      cases htk : jsTruthy w.token with
      | false => simp [bootStep, hb, htk]
      | true =>
        cases o with
        | none => simp [bootStep, hb, htk]
        | some u => simp [bootStep, hb, htk]
  · simp [bootStep, hv]

/-- Claim C6 witness: a call on an already-bootstrapped state returns at
once without changing anything. -/
theorem bootstrap_after_completion_witness :
    bootStep none BootPhase.start ⟨⟨true, some "u", true⟩, some "tok", 1⟩ =
      (BootPhase.done, ⟨⟨true, some "u", true⟩, some "tok", 1⟩) :=
  (bootstrap_after_completion ⟨⟨false, none, false⟩, none, 0⟩
    ⟨⟨true, some "u", true⟩, some "tok", 1⟩ none none rfl).2

/-- Claim C6 counterexample: with a stored token, when a second
`bootstrapAuth()` call starts while the first is suspended at the identity
check, two identity-check calls are issued — the validation logic does not
execute at most once. -/
theorem bootstrap_single_flight_cx :
    ¬ ((runTwo (some (some "u")) (some (some "u")) [true, false]
        (BootPhase.start, BootPhase.start,
          ⟨⟨false, none, false⟩, some "tok", 0⟩)).2.2.meCalls ≤ 1) := by
  decide

/-- Claim C7: when bootstrap actually runs (not yet bootstrapped): with a
present (truthy) credential and a failing identity check it clears the
stored credential and leaves the auth state
`{bootstrapped := true, authed := false, username := none}`, returning
normally (the embedding is a total function — no error escapes); with no
credential it produces the same auth state without issuing any identity
check and without touching the stored token. -/
theorem bootstrap_degradation (w : BootWorld) (o : Option (Option String))
    (h : w.auth.bootstrapped = false) :
    (jsTruthy w.token = true → o = none →
      runOne o w = { w with
                      token := none
                      auth := ⟨false, none, true⟩
                      meCalls := w.meCalls + 1 }) ∧
    (jsTruthy w.token = false →
      runOne o w = { w with auth := ⟨false, none, true⟩ }) := by
  constructor
  · intro ht ho
    subst ho
    unfold runOne
    simp [bootStep, h, ht]
  · intro ht
    unfold runOne
    simp [bootStep, h, ht]

/-- Claim C7 witness: an invalid stored credential degrades to the
unauthenticated state, clears the token, and counts one identity check. -/
theorem bootstrap_degradation_witness :
    runOne none ⟨⟨false, none, false⟩, some "tok", 3⟩ =
      ⟨⟨false, none, true⟩, none, 4⟩ :=
  (bootstrap_degradation ⟨⟨false, none, false⟩, some "tok", 3⟩ none rfl).1
    rfl rfl

/-- Claim C8: after bootstrap has resolved, the guard redirects an
unauthenticated navigation to an auth-required target to `/login` carrying
the target's full path as the `redirect` query parameter; redirects an
authenticated navigation to a guest-only target to `/`; and allows every
other navigation.  The decision reads only the target and the resolved auth
flag (`guardDecision` is a pure function — no further network I/O). -/
theorem guard_decision_table (t : RouteTarget) (authed : Bool) :
    (t.matched.any (fun r => r.requiresAuth) = true → authed = false →
      guardDecision t authed =
        GuardOutcome.redirect "/login" (some t.fullPath)) ∧
    (t.matched.any (fun r => r.guestOnly) = true → authed = true →
      guardDecision t authed = GuardOutcome.redirect "/" none) ∧
    ((t.matched.any (fun r => r.requiresAuth) && !authed) = false →
     (t.matched.any (fun r => r.guestOnly) && authed) = false →
      guardDecision t authed = GuardOutcome.allow) := by
  refine ⟨?_, ?_, ?_⟩
  · intro hr ha; subst ha; simp [guardDecision, hr]
  · intro hg ha; subst ha; simp [guardDecision, hg]
  · intro h1 h2; simp [guardDecision, h1, h2]

/-- Claim C8 witness: an unauthenticated navigation to an auth-required
target redirects to login carrying the original path. -/
theorem guard_decision_table_witness :
    guardDecision ⟨[⟨true, false⟩], "/chats/7"⟩ false =
      GuardOutcome.redirect "/login" (some "/chats/7") :=
  (guard_decision_table ⟨[⟨true, false⟩], "/chats/7"⟩ false).1 (by decide) rfl

theorem mem_buildRows_of_mem_acc (items : List ListItem) :
    ∀ acc r, r ∈ acc → r ∈ buildRows items acc := by
  induction items with
  | nil => intro acc r h; simpa [buildRows] using h
  | cons x xs ih =>
    intro acc r h
    obtain ⟨cid, xt, xc⟩ := x
    cases cid with
    | none => simpa only [buildRows] using ih acc r h
    | some k =>
      simp only [buildRows]
      by_cases hke : k = ""
      · rw [if_pos hke]; exact ih acc r h
      · rw [if_neg hke]
        cases hacc : acc.any (fun s => decide (s.chat_id = k)) with
        | true => rw [if_pos rfl]; exact ih acc r h
        | false =>
          rw [if_neg (by simp)]
          exact ih _ r (List.mem_append_left _ h)

theorem buildRows_first_wins (items : List ListItem) :
    ∀ acc r, r ∈ buildRows items acc →
      r ∈ acc ∨
      (acc.any (fun s => decide (s.chat_id = r.chat_id)) = false ∧
       r.chat_id ≠ "" ∧
       items.find? (fun x => decide (x.chat_id = some r.chat_id)) =
         some ⟨some r.chat_id, r.title, r.created_at⟩) := by
  induction items with
  | nil => intro acc r h; left; simpa [buildRows] using h
  | cons x xs ih =>
    intro acc r h
    obtain ⟨cid, xt, xc⟩ := x
    cases cid with
    | none =>
      simp only [buildRows] at h
      rcases ih acc r h with h0 | ⟨ha, hne, hf⟩
      · exact Or.inl h0
      · refine Or.inr ⟨ha, hne, ?_⟩
        rw [List.find?_cons_of_neg _ (by simp)]
        exact hf
    | some k =>
      simp only [buildRows] at h
      by_cases hke : k = ""
      · rw [if_pos hke] at h
        rcases ih acc r h with h0 | ⟨ha, hne, hf⟩
        · exact Or.inl h0
        · refine Or.inr ⟨ha, hne, ?_⟩
          rw [List.find?_cons_of_neg _ (by subst hke; simp [Ne.symm hne])]
          exact hf
      · rw [if_neg hke] at h
        cases hacc : acc.any (fun s => decide (s.chat_id = k)) with
        | true =>
          rw [if_pos hacc] at h
          rcases ih acc r h with h0 | ⟨ha, hne, hf⟩
          · exact Or.inl h0
          · refine Or.inr ⟨ha, hne, ?_⟩
            have hkr : ¬k = r.chat_id := by
              intro hkr
              rw [hkr] at hacc
              rw [hacc] at ha
              simp at ha
            rw [List.find?_cons_of_neg _ (by simp [hkr])]
            exact hf
        | false =>
          rw [if_neg (by simp [hacc])] at h
          rcases ih _ r h with h0 | ⟨ha', hne, hf⟩
          · rcases List.mem_append.mp h0 with hacc0 | hrow
            · exact Or.inl hacc0
            · have hr : r = ⟨k, xt, xc⟩ := List.mem_singleton.mp hrow
              subst hr
              refine Or.inr ⟨hacc, hke, ?_⟩
              rw [List.find?_cons_of_pos _ (by simp)]
          · have hkr : ¬k = r.chat_id := by
              intro hkr
              have hin : (acc ++ [(⟨k, xt, xc⟩ : HistoryRow)]).any
                  (fun s => decide (s.chat_id = r.chat_id)) = true :=
                List.any_eq_true.mpr
                  ⟨⟨k, xt, xc⟩,
                   List.mem_append_right _ (List.mem_singleton_self _),
                   by simp [hkr]⟩
              rw [hin] at ha'
              simp at ha'
            have ha : acc.any (fun s => decide (s.chat_id = r.chat_id)) = false := by
              cases hval : acc.any (fun s => decide (s.chat_id = r.chat_id)) with
              | false => rfl
              | true =>
                obtain ⟨s, hs, hsk⟩ := List.any_eq_true.mp hval
                have hin : (acc ++ [(⟨k, xt, xc⟩ : HistoryRow)]).any
                    (fun s => decide (s.chat_id = r.chat_id)) = true :=
                  List.any_eq_true.mpr ⟨s, List.mem_append_left _ hs, hsk⟩
                rw [hin] at ha'
                simp at ha'
            refine Or.inr ⟨ha, hne, ?_⟩
            rw [List.find?_cons_of_neg _ (by simp [hkr])]
            exact hf

theorem buildRows_pairwise (items : List ListItem) :
    ∀ acc, acc.Pairwise (fun a b => a.chat_id ≠ b.chat_id) →
      (buildRows items acc).Pairwise (fun a b => a.chat_id ≠ b.chat_id) := by
  induction items with
  | nil => intro acc h; simpa [buildRows] using h
  | cons x xs ih =>
    intro acc h
    obtain ⟨cid, xt, xc⟩ := x
    cases cid with
    | none => simpa only [buildRows] using ih acc h
    | some k =>
      simp only [buildRows]
      by_cases hke : k = ""
      · rw [if_pos hke]; exact ih acc h
      · rw [if_neg hke]
        cases hacc : acc.any (fun s => decide (s.chat_id = k)) with
        | true => rw [if_pos rfl]; exact ih acc h
        | false =>
          rw [if_neg (by simp)]
          refine ih _ (List.pairwise_append.mpr
            ⟨h, List.pairwise_singleton _ _, ?_⟩)
          intro a hac b hb
          have hb' : b = ⟨k, xt, xc⟩ := List.mem_singleton.mp hb
          subst hb'
          intro hcontra
          have hin : acc.any (fun s => decide (s.chat_id = k)) = true :=
            List.any_eq_true.mpr ⟨a, hac, by simp [hcontra]⟩
          rw [hin] at hacc
          simp at hacc

theorem buildRows_complete (items : List ListItem) :
    ∀ acc x k, x ∈ items → x.chat_id = some k → k ≠ "" →
      ∃ r ∈ buildRows items acc, r.chat_id = k := by
  induction items with
  | nil => intro acc x k hx; exact absurd hx (List.not_mem_nil x)
  | cons y ys ih =>
    intro acc x k hx hxk hke
    rcases List.mem_cons.mp hx with rfl | hmem
    · obtain ⟨cid, xt, xc⟩ := x
      have hcid : cid = some k := hxk
      subst hcid
      simp only [buildRows]
      rw [if_neg hke]
      cases hacc : acc.any (fun s => decide (s.chat_id = k)) with
      | true =>
        rw [if_pos rfl]
        obtain ⟨s, hs, hsk⟩ := List.any_eq_true.mp hacc
        exact ⟨s, mem_buildRows_of_mem_acc ys acc s hs, of_decide_eq_true hsk⟩
      | false =>
        rw [if_neg (by simp)]
        refine ⟨⟨k, xt, xc⟩, ?_, rfl⟩
        exact mem_buildRows_of_mem_acc ys _ _
          (List.mem_append_right _ (List.mem_singleton_self _))
    · obtain ⟨cid, yt, yc⟩ := y
      cases cid with
      | none => simpa only [buildRows] using ih acc x k hmem hxk hke
      | some k' =>
        simp only [buildRows]
        by_cases hke' : k' = ""
        · rw [if_pos hke']; exact ih acc x k hmem hxk hke
        · rw [if_neg hke']
          cases hacc : acc.any (fun s => decide (s.chat_id = k')) with
          | true => rw [if_pos rfl]; exact ih acc x k hmem hxk hke
          | false =>
            rw [if_neg (by simp)]
            exact ih _ x k hmem hxk hke

/-- Claim C9: the processed list response that replaces the History Index
has pairwise-distinct server ids; every resulting row is exactly the first
response item carrying its id (first occurrence wins, keeping the first-seen
title); every response item with a truthy id is represented; and the result
is sorted by parsed creation time descending.  In particular two entries
with the same id yield one row with the first-seen title (see the
witness). -/
theorem history_refresh_dedup_sorted (parse : String → Int)
    (items : List ListItem) :
    (refreshRows parse items).Pairwise (fun a b => a.chat_id ≠ b.chat_id) ∧
    (∀ r ∈ refreshRows parse items,
      r.chat_id ≠ "" ∧
      items.find? (fun x => decide (x.chat_id = some r.chat_id)) =
        some ⟨some r.chat_id, r.title, r.created_at⟩) ∧
    (∀ x ∈ items, ∀ k, x.chat_id = some k → k ≠ "" →
      ∃ r ∈ refreshRows parse items, r.chat_id = k) ∧
    (refreshRows parse items).Sorted (createdGE parse) := by
  have hperm := List.perm_insertionSort (createdGE parse) (buildRows items [])
  refine ⟨?_, ?_, ?_, ?_⟩
  · have hp := buildRows_pairwise items [] List.Pairwise.nil
    exact (List.Perm.pairwise_iff (fun hxy => hxy.symm) hperm).mpr hp
  · intro r hr
    have hr' : r ∈ buildRows items [] := hperm.mem_iff.mp hr
    rcases buildRows_first_wins items [] r hr' with h0 | ⟨_, hne, hf⟩
    · exact absurd h0 (List.not_mem_nil r)
    · exact ⟨hne, hf⟩
  · intro x hx k hk hke
    obtain ⟨r, hrmem, hrk⟩ := buildRows_complete items [] x k hx hk hke
    exact ⟨r, hperm.mem_iff.mpr hrmem, hrk⟩
  · letI : IsTotal HistoryRow (createdGE parse) :=
      ⟨fun a b => Int.le_total (parse b.created_at) (parse a.created_at)⟩
    letI : IsTrans HistoryRow (createdGE parse) :=
      ⟨fun a b c hab hbc => le_trans hbc hab⟩
    exact List.sorted_insertionSort _ _

/-- Claim C9 witness: two response entries with the same id and different
titles yield exactly one index row, keeping the first-seen title, and the
result has pairwise-distinct ids. -/
theorem history_refresh_dedup_sorted_witness :
    refreshRows (fun s => (s.toList.length : Int))
      [⟨some "a", "T1", "1"⟩, ⟨some "a", "T2", "22"⟩] = [⟨"a", "T1", "1"⟩] ∧
    (refreshRows (fun s => (s.toList.length : Int))
      [⟨some "a", "T1", "1"⟩, ⟨some "a", "T2", "22"⟩]).Pairwise
        (fun a b => a.chat_id ≠ b.chat_id) :=
  ⟨by decide,
   (history_refresh_dedup_sorted (fun s => (s.toList.length : Int))
     [⟨some "a", "T1", "1"⟩, ⟨some "a", "T2", "22"⟩]).1⟩

/-- Claim C10: if the list call fails during a refresh, the previously held
History Index is left unchanged and the error propagates to the caller; the
loading flag is cleared regardless of the outcome; and only on success is
the index replaced (by the processed response items), with no error. -/
theorem refresh_failure_preserves (parse : String → Int) (st : HistState)
    (outcome : Option ListResp) :
    (outcome = none →
      (refreshListRun parse st outcome).1.history = st.history ∧
      (refreshListRun parse st outcome).2 = true) ∧
    (refreshListRun parse st outcome).1.loadingList = false ∧
    (∀ r, outcome = some r →
      (refreshListRun parse st outcome).2 = false ∧
      (refreshListRun parse st outcome).1.history =
        refreshRows parse (match r.items with
          | some l => l
          | none => [])) := by
  cases outcome <;> simp [refreshListRun]

/-- Claim C10 witness: a failing list call leaves the previously held index
in place. -/
theorem refresh_failure_preserves_witness :
    (refreshListRun (fun _ => 0) ⟨[⟨"old", "t", "c"⟩], true⟩ none).1.history =
      [⟨"old", "t", "c"⟩] :=
  ((refresh_failure_preserves (fun _ => 0) ⟨[⟨"old", "t", "c"⟩], true⟩
    none).1 rfl).1

end ChatClient
